import Mathlib

/-
Verification development for the nx-cache-server repository.

The Rust sources are shallowly embedded: strings are lists of characters
(Unicode scalar values, as in Rust), byte lengths are UTF-8 byte counts,
the S3 remote is modelled as an association list from storage key to the
stored bytes, and fallible operations return Except values mirroring the
Result values of the source.  The character-class tables used by the
embedding (rustIsAlphanumeric, rustIsWhitespace) implement the Unicode
predicates of the Rust standard library restricted to the Latin-1 range
(code points below 0x100), the range on which all concrete inputs of this
development live; their doc comments state the restriction.
-/

set_option autoImplicit false

deriving instance DecidableEq for Except

/-- Strings are modelled as lists of Unicode characters, matching the Rust
type str viewed as a sequence of char values. -/
abbrev Str := List Char

/-- Artifact payloads are byte sequences. -/
abbrev Bytes := List Nat

/-- Models char::is_whitespace of the Rust standard library (the Unicode
White_Space property) for code points below 0x100: horizontal tab through
carriage return, space, next line (U+0085) and no-break space (U+00A0).
Code points of 0x100 and above are outside the range covered by this
development and are mapped to false. -/
def rustIsWhitespace (c : Char) : Bool :=
  let n := c.toNat
  (0x09 ≤ n && n ≤ 0x0D) || n == 0x20 || n == 0x85 || n == 0xA0

/-- Models char::is_alphanumeric of the Rust standard library (Unicode
Alphabetic or general category Nd, Nl, No) for code points below 0x100:
ASCII digits and letters, the Latin-1 ordinal indicators (U+00AA, U+00BA),
micro sign (U+00B5), superscripts one to three (U+00B9, U+00B2, U+00B3),
vulgar fractions (U+00BC to U+00BE) and the Latin-1 letters (U+00C0 to
U+00FF except the multiplication and division signs U+00D7, U+00F7).
Code points of 0x100 and above are outside the range covered by this
development and are mapped to false. -/
def rustIsAlphanumeric (c : Char) : Bool :=
  let n := c.toNat
  (0x30 ≤ n && n ≤ 0x39) ||
  (0x41 ≤ n && n ≤ 0x5A) ||
  (0x61 ≤ n && n ≤ 0x7A) ||
  n == 0xAA || n == 0xB5 || n == 0xBA ||
  n == 0xB2 || n == 0xB3 || n == 0xB9 ||
  (0xBC ≤ n && n ≤ 0xBE) ||
  (0xC0 ≤ n && n ≤ 0xD6) ||
  (0xD8 ≤ n && n ≤ 0xF6) ||
  (0xF8 ≤ n && n ≤ 0xFF)

/-- UTF-8 encoding of one character, used to express byte-level statements
about hash strings. -/
def charUtf8Bytes (c : Char) : Bytes :=
  let n := c.toNat
  if n < 0x80 then [n]
  else if n < 0x800 then [0xC0 + n / 0x40, 0x80 + n % 0x40]
  else if n < 0x10000 then
    [0xE0 + n / 0x1000, 0x80 + n / 0x40 % 0x40, 0x80 + n % 0x40]
  else
    [0xF0 + n / 0x40000, 0x80 + n / 0x1000 % 0x40, 0x80 + n / 0x40 % 0x40,
     0x80 + n % 0x40]

/-- UTF-8 byte sequence of a string. -/
def strUtf8Bytes (s : Str) : Bytes := s.flatMap charUtf8Bytes

/-- UTF-8 byte length of a string; models str::len of Rust. -/
def strUtf8Len (s : Str) : Nat := (s.map Char.utf8Size).sum

/-- Error kinds of the storage layer; models StorageError in
src/domain/storage.rs. -/
inductive StorageError where
  | NotFound
  | AlreadyExists
  | OperationFailed
deriving DecidableEq, Repr

/-- Error kinds of the HTTP layer; models ServerError in
src/server/error.rs. -/
inductive ServerError where
  | BadRequest
  | Unauthorized
  | InternalError
  | Storage (e : StorageError)
deriving DecidableEq, Repr

/-- Models validate_hash in src/server/validation.rs: reject the empty
hash, then reject a hash containing a character that is not alphanumeric
(in the Unicode sense of char::is_alphanumeric), a hyphen or an
underscore, then reject a hash whose UTF-8 byte length exceeds 128. -/
def validate_hash (hash : Str) : Except ServerError Unit :=
  if hash.isEmpty then .error .BadRequest
  else if !(hash.all fun c => rustIsAlphanumeric c || c == '-' || c == '_') then
    .error .BadRequest
  else if strUtf8Len hash > 128 then .error .BadRequest
  else .ok ()

/-- Contents of one remote S3 bucket: an association from storage key to
stored bytes, first binding wins on lookup. -/
abbrev S3State := List (Str × Bytes)

/-- First value bound to a key in an association list. -/
def assocFind {α β : Type} [DecidableEq α] (k : α) : List (α × β) → Option β
  | [] => none
  | (k', v) :: rest => if k' = k then some v else assocFind k rest

/-- Models the head_object call of S3Storage::exists in src/infra/aws.rs:
true when the key holds an object, false when the remote reports that the
object is missing. -/
def s3_exists (st : S3State) (key : Str) : Bool :=
  (assocFind key st).isSome

/-- Models the put_object call in S3Storage::store: an unconditional
overwriting write of the streamed bytes at the key. -/
def put_object (st : S3State) (key : Str) (data : Bytes) : S3State :=
  (key, data) :: st

/-- Models S3Storage::store in src/infra/aws.rs (lines 271 to 328): the
adapter first checks existence of the key itself and fails with
AlreadyExists when the key is occupied; otherwise it forwards the body to
put_object. -/
def s3_store (st : S3State) (key : Str) (data : Bytes) :
    Except StorageError S3State :=
  if s3_exists st key then .error .AlreadyExists
  else .ok (put_object st key data)

/-- Models S3Storage::retrieve in src/infra/aws.rs: NoSuchKey is mapped to
NotFound, otherwise the object bytes are streamed back. -/
def s3_retrieve (st : S3State) (key : Str) : Except StorageError Bytes :=
  match assocFind key st with
  | some data => .ok data
  | none => .error .NotFound

/-- Models str::trim of Rust: remove leading and trailing whitespace. -/
def rustTrim (s : Str) : Str :=
  ((s.dropWhile rustIsWhitespace).reverse.dropWhile rustIsWhitespace).reverse

/-- Models YamlConfig::normalize_prefix in src/domain/yaml_config.rs
(lines 309 to 328): trim the input; an empty result stays empty; otherwise
prepend a slash when the trimmed input does not start with one, and remove
one trailing slash when the intermediate string is longer than one
character and ends with a slash. -/
def normalizePrefix (p : Str) : Str :=
  let trimmed := rustTrim p
  if trimmed.isEmpty then []
  else
    let normalized := if trimmed.head? = some '/' then trimmed else '/' :: trimmed
    if normalized.length > 1 && normalized.getLast? == some '/' then
      normalized.dropLast
    else normalized

/-- Models ResolvedBucketConfig in src/domain/yaml_config.rs, restricted
to the fields the router consults. -/
structure ResolvedBucketConfig where
  name : Str
  bucket_name : Str
deriving DecidableEq, Repr

/-- Models ResolvedServiceAccessToken in src/domain/yaml_config.rs.  The
keyPrefix field embeds the field named after the key namespace in the
source. -/
structure ResolvedServiceAccessToken where
  name : Str
  bucket : Str
  keyPrefix : Str
  access_token : Str
deriving DecidableEq, Repr

/-- Models ResolvedConfig in src/domain/yaml_config.rs. -/
structure ResolvedConfig where
  buckets : List ResolvedBucketConfig
  service_access_tokens : List ResolvedServiceAccessToken
  port : Nat
deriving DecidableEq, Repr

/-- Models ResolvedConfig::build_token_registry: collect the pairs of
access token and token record into a map; a later duplicate key shadows an
earlier one, as with HashMap insertion. -/
def build_token_registry (c : ResolvedConfig) :
    List (Str × ResolvedServiceAccessToken) :=
  c.service_access_tokens.foldl (fun m t => (t.access_token, t) :: m) []

/-- Models MultiStorageRouter in src/infra/multi_storage.rs: a map from
bucket name to the state of that remote bucket, and a map from access
token to its service record. -/
structure MultiStorageRouter where
  storages : List (Str × S3State)
  token_map : List (Str × ResolvedServiceAccessToken)
deriving DecidableEq, Repr

/-- Models MultiStorageRouter::from_config: one storage per configured
bucket (its remote contents start empty here) and the token registry. -/
def MultiStorageRouter.from_config (c : ResolvedConfig) : MultiStorageRouter :=
  { storages := c.buckets.map fun b => (b.name, ([] : S3State))
    token_map := build_token_registry c }

/-- Models MultiStorageRouter::tokens: the keys of the token map. -/
def MultiStorageRouter.tokens (r : MultiStorageRouter) : List Str :=
  r.token_map.map (·.1)

/-- Models MultiStorageRouter::get_token_config. -/
def MultiStorageRouter.get_token_config (r : MultiStorageRouter) (token : Str) :
    Option ResolvedServiceAccessToken :=
  assocFind token r.token_map

/-- Models MultiStorageRouter::resolve_storage in src/infra/multi_storage.rs
(lines 57 to 69): look the token up in the token map, then look its bucket
up among the storages; either lookup failing yields OperationFailed.  The
result carries the bucket name, the state of that bucket and the key
namespace of the token. -/
def resolve_storage (r : MultiStorageRouter) (token : Str) :
    Except StorageError (Str × S3State × Str) :=
  match assocFind token r.token_map with
  | none => .error .OperationFailed
  | some sc =>
    match assocFind sc.bucket r.storages with
    | none => .error .OperationFailed
    | some st => .ok (sc.bucket, st, sc.keyPrefix)

/-- Models MultiStorageRouter::build_key in src/infra/multi_storage.rs
(lines 72 to 78): the hash alone for an empty namespace, otherwise the
namespace, a slash and the hash. -/
def build_key (p : Str) (hash : Str) : Str :=
  if p.isEmpty then hash else p ++ '/' :: hash

/-- Replace the state of one bucket in the router, modelling a write
through the shared storage handle. -/
def update_bucket (r : MultiStorageRouter) (bucket : Str) (st : S3State) :
    MultiStorageRouter :=
  { r with storages := (bucket, st) :: r.storages }

/-- Models MultiStorageRouter::exists_with_token. -/
def exists_with_token (r : MultiStorageRouter) (token : Str) (hash : Str) :
    Except StorageError Bool :=
  match resolve_storage r token with
  | .error e => .error e
  | .ok (_, st, p) => .ok (s3_exists st (build_key p hash))

/-- Models MultiStorageRouter::store_with_token. -/
def store_with_token (r : MultiStorageRouter) (token : Str) (hash : Str)
    (data : Bytes) : Except StorageError MultiStorageRouter :=
  match resolve_storage r token with
  | .error e => .error e
  | .ok (bucket, st, p) =>
    match s3_store st (build_key p hash) data with
    | .error e => .error e
    | .ok st' => .ok (update_bucket r bucket st')

/-- Models MultiStorageRouter::retrieve_with_token. -/
def retrieve_with_token (r : MultiStorageRouter) (token : Str) (hash : Str) :
    Except StorageError Bytes :=
  match resolve_storage r token with
  | .error e => .error e
  | .ok (_, st, p) => s3_retrieve st (build_key p hash)

/-- Body of an HTTP response: either streamed artifact bytes or a fixed
text. -/
inductive HttpBody where
  | bytes (b : Bytes)
  | text (s : Str)
deriving DecidableEq, Repr

/-- An HTTP response: status code, optional Content-Type header value and
body. -/
structure HttpResponse where
  status : Nat
  contentType : Option String
  body : HttpBody
deriving DecidableEq, Repr

/-- Models the IntoResponse instance of ServerError in src/server/error.rs
(lines 23 to 47): each error kind is mapped to its status and fixed plain
text body, with the Content-Type header set to text/plain. -/
def errorResponse : ServerError → HttpResponse
  | .Storage .NotFound =>
    ⟨404, some "text/plain", .text "The record was not found".data⟩
  | .Storage .AlreadyExists =>
    ⟨409, some "text/plain", .text "Cannot override an existing record".data⟩
  | .BadRequest => ⟨400, some "text/plain", .text "Bad request".data⟩
  | .Unauthorized => ⟨401, some "text/plain", .text "Unauthorized".data⟩
  | .InternalError =>
    ⟨500, some "text/plain", .text "Internal server error".data⟩
  | .Storage .OperationFailed =>
    ⟨500, some "text/plain", .text "Internal server error".data⟩

/-- Models store_artifact in src/server/handlers.rs: validate the hash,
require the authenticated token from the request extensions, snapshot the
Content-Length hint, refuse with an inline 409 when the key already
exists, otherwise stream the body to the router and answer 202 Accepted
with an empty body (axum gives a string body the Content-Type
text/plain; charset=utf-8). -/
def store_artifact (r : MultiStorageRouter) (token : Option Str) (hash : Str)
    (_content_length : Option Nat) (body : Bytes) :
    MultiStorageRouter × HttpResponse :=
  match validate_hash hash with
  | .error e => (r, errorResponse e)
  | .ok () =>
    match token with
    | none => (r, errorResponse .Unauthorized)
    | some tok =>
      match exists_with_token r tok hash with
      | .error e => (r, errorResponse (.Storage e))
      | .ok true =>
        (r, ⟨409, some "text/plain; charset=utf-8",
             .text "Cannot override an existing record".data⟩)
      | .ok false =>
        match store_with_token r tok hash body with
        | .error e => (r, errorResponse (.Storage e))
        | .ok r' => (r', ⟨202, some "text/plain; charset=utf-8", .text []⟩)

/-- Models retrieve_artifact in src/server/handlers.rs: validate the hash,
require the authenticated token, then stream the object back with status
200 and Content-Type application/octet-stream, mapping storage errors
through ServerError. -/
def retrieve_artifact (r : MultiStorageRouter) (token : Option Str)
    (hash : Str) : MultiStorageRouter × HttpResponse :=
  match validate_hash hash with
  | .error e => (r, errorResponse e)
  | .ok () =>
    match token with
    | none => (r, errorResponse .Unauthorized)
    | some tok =>
      match retrieve_with_token r tok hash with
      | .error e => (r, errorResponse (.Storage e))
      | .ok data =>
        (r, ⟨200, some "application/octet-stream", .bytes data⟩)

/-- Models health_check in src/server/handlers.rs. -/
def health_check : HttpResponse :=
  ⟨200, some "text/plain; charset=utf-8", .text "OK".data⟩

/-- Models the token loop of auth_middleware in src/server/middleware.rs
(lines 32 to 40): walk the configured tokens, comparing the candidate with
each by a constant-time byte equality, and stop at the first match.  The
result carries the matched token and the number of comparisons that were
performed. -/
def token_walk (tokens : List Str) (cand : Str) : Option Str × Nat :=
  match tokens with
  | [] => (none, 0)
  | t :: rest =>
    if cand = t then (some t, 1)
    else
      let w := token_walk rest cand
      (w.1, w.2 + 1)

/-- Models reading the Authorization header: the candidate token is the
remainder after the Bearer prefix, absent when the header is missing or
shaped otherwise. -/
def bearerToken (auth : Option Str) : Option Str :=
  match auth with
  | none => none
  | some s =>
    if "Bearer ".data.isPrefixOf s then some (s.drop "Bearer ".data.length)
    else none

/-- The 401 response produced by auth_middleware returning a bare status
code: empty body and no Content-Type header. -/
def middleware401 : HttpResponse := ⟨401, none, .text []⟩

/-- Models auth_middleware in src/server/middleware.rs: extract the bearer
candidate, walk the configured tokens, and either pass the matched token
on to the handler or answer 401. -/
def auth_middleware (r : MultiStorageRouter) (auth : Option Str) :
    Except HttpResponse Str :=
  match bearerToken auth with
  | none => .error middleware401
  | some cand =>
    match (token_walk r.tokens cand).1 with
    | some t => .ok t
    | none => .error middleware401

/-- The requests the router of src/server/router.rs dispatches: the public
health route and the two authenticated cache routes. -/
inductive HttpRequest where
  | healthGet
  | cacheGet (auth : Option Str) (hash : Str)
  | cachePut (auth : Option Str) (hash : Str) (content_length : Option Nat)
      (body : Bytes)

/-- Models one request through the full router of src/server/router.rs:
the health route is public; the cache routes run auth_middleware first and
then the handler with the authenticated token. -/
def serve (r : MultiStorageRouter) (req : HttpRequest) :
    MultiStorageRouter × HttpResponse :=
  match req with
  | .healthGet => (r, health_check)
  | .cacheGet auth hash =>
    match auth_middleware r auth with
    | .error resp => (r, resp)
    | .ok tok => retrieve_artifact r (some tok) hash
  | .cachePut auth hash cl body =>
    match auth_middleware r auth with
    | .error resp => (r, resp)
    | .ok tok => store_artifact r (some tok) hash cl body

/-- A concrete service token record used by witnesses: token t1 bound to
bucket b1 under the namespace /test. -/
def sampleTokenRecord : ResolvedServiceAccessToken :=
  ⟨"team".data, "b1".data, "/test".data, "t1".data⟩

/-- A concrete resolved configuration with one bucket and one token. -/
def sampleConfig : ResolvedConfig :=
  ⟨[⟨"b1".data, "my-bucket".data⟩], [sampleTokenRecord], 3000⟩

/-- The router built from the sample configuration. -/
def sampleRouter : MultiStorageRouter :=
  MultiStorageRouter.from_config sampleConfig

/-- A two-token configuration used for the authentication walk: tokens tA
and tB against distinct namespaces of the same bucket. -/
def sampleConfig2 : ResolvedConfig :=
  ⟨[⟨"b1".data, "my-bucket".data⟩],
   [⟨"ci".data, "b1".data, "/ci".data, "tA".data⟩,
    ⟨"dev".data, "b1".data, "/dev".data, "tB".data⟩], 3000⟩


/-- Follows the words of the spec (section 6, storage-key layout), for
comparison with build_key: strip the leading slash of the namespace if
any, then use the hash alone when the stripped namespace is empty and
otherwise join with a slash. -/
def spec_storage_key (p : Str) (hash : Str) : Str :=
  let p' := if p.head? = some '/' then p.tail else p
  if p'.isEmpty then hash else p' ++ '/' :: hash

/-- The fixed error body the spec assigns to each non-2xx status. -/
def fixedBody : Nat → Str
  | 400 => "Bad request".data
  | 401 => "Unauthorized".data
  | 404 => "The record was not found".data
  | 409 => "Cannot override an existing record".data
  | 500 => "Internal server error".data
  | _ => []

/-- A Content-Type header value for the text/plain media type, with or
without the charset parameter axum appends to string bodies. -/
def isTextPlain (ct : Option String) : Prop :=
  ct = some "text/plain" ∨ ct = some "text/plain; charset=utf-8"

instance (ct : Option String) : Decidable (isTextPlain ct) := by
  unfold isTextPlain; infer_instance

theorem assocFind_cons_self {α β : Type} [DecidableEq α] (k : α) (v : β)
    (l : List (α × β)) : assocFind k ((k, v) :: l) = some v := by
  simp [assocFind]

theorem assocFind_mem {α β : Type} [DecidableEq α] {k : α} {v : β}
    {l : List (α × β)} (h : assocFind k l = some v) : (k, v) ∈ l := by
  induction l with
  | nil => simp [assocFind] at h
  | cons hd tl ih =>
    obtain ⟨k', v'⟩ := hd
    by_cases hk : k' = k
    · subst hk
      rw [assocFind_cons_self] at h
      injection h with h
      subst h
      exact List.mem_cons_self ..
    · simp only [assocFind, if_neg hk] at h
      exact List.mem_cons_of_mem _ (ih h)

theorem assocFind_isSome_of_mem_keys {α β : Type} [DecidableEq α] {k : α}
    {l : List (α × β)} (h : k ∈ l.map (·.1)) : ∃ v, assocFind k l = some v := by
  induction l with
  | nil => simp at h
  | cons hd tl ih =>
    obtain ⟨k', v'⟩ := hd
    by_cases hk : k' = k
    · subst hk
      exact ⟨v', assocFind_cons_self ..⟩
    · simp only [List.map_cons, List.mem_cons] at h
      rcases h with h | h
    
      · exact absurd h.symm hk
      · obtain ⟨v, hv⟩ := ih h
        exact ⟨v, by simp only [assocFind, if_neg hk]; exact hv⟩

theorem errorResponse_status_ne (e : ServerError) :
    (errorResponse e).status ≠ 202 ∧ (errorResponse e).status ≠ 200 := by
  cases e with
  | Storage se => cases se <;> exact ⟨by decide, by decide⟩
  | BadRequest => exact ⟨by decide, by decide⟩
  | Unauthorized => exact ⟨by decide, by decide⟩
  | InternalError => exact ⟨by decide, by decide⟩

theorem errorResponse_fixed (e : ServerError) :
    isTextPlain (errorResponse e).contentType ∧
    (errorResponse e).body = .text (fixedBody (errorResponse e).status) := by
  cases e with
  | Storage se => cases se <;> exact ⟨by decide, by decide⟩
  | BadRequest => exact ⟨by decide, by decide⟩
  | Unauthorized => exact ⟨by decide, by decide⟩
  | InternalError => exact ⟨by decide, by decide⟩

theorem resolve_storage_ok_inv {r : MultiStorageRouter} {tok : Str}
    {v : Str × S3State × Str} (h : resolve_storage r tok = .ok v) :
    ∃ sc st, assocFind tok r.token_map = some sc ∧
      assocFind sc.bucket r.storages = some st ∧
      v = (sc.bucket, st, sc.keyPrefix) := by
  unfold resolve_storage at h
  cases hsc : assocFind tok r.token_map with
  | none => simp [hsc] at h
  | some sc =>
    simp only [hsc] at h
    cases hst : assocFind sc.bucket r.storages with
    | none => simp [hst] at h
    | some st =>
      simp only [hst] at h
      injection h with h
      exact ⟨sc, st, rfl, hst, h.symm⟩

theorem store_with_token_ok_inv {r r' : MultiStorageRouter} {tok hash : Str}
    {body : Bytes} (h : store_with_token r tok hash body = .ok r') :
    ∃ sc st, assocFind tok r.token_map = some sc ∧
      assocFind sc.bucket r.storages = some st ∧
      s3_exists st (build_key sc.keyPrefix hash) = false ∧
      r' = update_bucket r sc.bucket
        (put_object st (build_key sc.keyPrefix hash) body) := by
  unfold store_with_token at h
  cases hres : resolve_storage r tok with
  | error e => simp [hres] at h
  | ok v =>
    obtain ⟨sc, st, hsc, hst, hv⟩ := resolve_storage_ok_inv hres
    subst hv
    simp only [hres] at h
    unfold s3_store at h
    cases hex : s3_exists st (build_key sc.keyPrefix hash) with
    | true => simp [hex] at h
    | false =>
      simp only [hex, Bool.false_eq_true, if_false] at h
      injection h with h
      exact ⟨sc, st, hsc, hst, hex, h.symm⟩

theorem retrieve_after_store {r r' : MultiStorageRouter} {tok hash : Str}
    {body : Bytes} (h : store_with_token r tok hash body = .ok r') :
    retrieve_with_token r' tok hash = .ok body := by
  obtain ⟨sc, st, hsc, hst, hex, hr'⟩ := store_with_token_ok_inv h
  subst hr'
  unfold retrieve_with_token resolve_storage update_bucket
  simp only [hsc, assocFind_cons_self]
  unfold s3_retrieve put_object
  simp [assocFind_cons_self]

theorem exists_after_store {r r' : MultiStorageRouter} {tok hash : Str}
    {body : Bytes} (h : store_with_token r tok hash body = .ok r') :
    exists_with_token r' tok hash = .ok true := by
  obtain ⟨sc, st, hsc, hst, hex, hr'⟩ := store_with_token_ok_inv h
  subst hr'
  unfold exists_with_token resolve_storage update_bucket
  simp only [hsc, assocFind_cons_self]
  unfold s3_exists put_object
  simp [assocFind_cons_self]

theorem store_artifact_success_inv {r r' : MultiStorageRouter} {tok hash : Str}
    {cl : Option Nat} {body : Bytes} {resp : HttpResponse}
    (h : store_artifact r (some tok) hash cl body = (r', resp))
    (hs : resp.status = 202) :
    validate_hash hash = .ok () ∧
    exists_with_token r tok hash = .ok false ∧
    store_with_token r tok hash body = .ok r' ∧
    resp = ⟨202, some "text/plain; charset=utf-8", .text []⟩ := by
  unfold store_artifact at h
  cases hval : validate_hash hash with
  | error e =>
    simp only [hval] at h
    injection h with h1 h2
    rw [← h2] at hs
    exact absurd hs (errorResponse_status_ne e).1
  | ok u =>
    cases u
    simp only [hval] at h
    cases hex : exists_with_token r tok hash with
    | error e =>
      simp only [hex] at h
      injection h with h1 h2
      rw [← h2] at hs
      exact absurd hs (errorResponse_status_ne (.Storage e)).1
    | ok b =>
      cases b with
      | true =>
        simp only [hex] at h
        injection h with h1 h2
        rw [← h2] at hs
        simp at hs
      | false =>
        simp only [hex] at h
        cases hstore : store_with_token r tok hash body with
        | error e =>
          simp only [hstore] at h
          injection h with h1 h2
          rw [← h2] at hs
          exact absurd hs (errorResponse_status_ne (.Storage e)).1
        | ok r2 =>
          simp only [hstore] at h
          injection h with h1 h2
          subst h1
          exact ⟨rfl, rfl, rfl, h2.symm⟩

/-- C1 counterexample: a successful first PUT answers status 202, never
200, so the trigger of the claim (a PUT that returned 200) mislabels the
success status of store_artifact. -/
theorem C1_counterexample :
    (store_artifact sampleRouter (some "t1".data) "c1hash".data none
      [9]).2.status = 202 ∧
    (store_artifact sampleRouter (some "t1".data) "c1hash".data none
      [9]).2.status ≠ 200 ∧
    (retrieve_artifact
      (store_artifact sampleRouter (some "t1".data) "c1hash".data none [9]).1
      (some "t1".data) "c1hash".data).2.status = 200 := by decide

/-- C1: write-once, amended to the success status used by the code.  After a PUT
that succeeded (status 202), a second PUT for the same tenant token and
hash with any body answers 409 with the fixed body, leaves the router
state untouched (the refusal comes from the exists-check in the handler,
before any write reaches the backend), and a GET still returns the first
body. -/
theorem C1_write_once_after_success
    (r r' : MultiStorageRouter) (tok hash : Str) (cl cl' : Option Nat)
    (b b' : Bytes) (resp : HttpResponse)
    (h : store_artifact r (some tok) hash cl b = (r', resp))
    (hs : resp.status = 202) :
    store_artifact r' (some tok) hash cl' b' =
      (r', ⟨409, some "text/plain; charset=utf-8",
            .text "Cannot override an existing record".data⟩) ∧
    retrieve_artifact r' (some tok) hash =
      (r', ⟨200, some "application/octet-stream", .bytes b⟩) := by
  obtain ⟨hval, hex, hstore, hresp⟩ := store_artifact_success_inv h hs
  have hex' := exists_after_store hstore
  have hret := retrieve_after_store hstore
  constructor
  · unfold store_artifact
    simp [hval, hex']
  · unfold retrieve_artifact
    simp [hval, hret]

/-- C1 witness: the write-once theorem applied to a concrete router,
token, hash and bodies. -/
theorem C1_witness :
    store_artifact
      (store_artifact sampleRouter (some "t1".data) "w1".data none [1]).1
      (some "t1".data) "w1".data none [2] =
    ((store_artifact sampleRouter (some "t1".data) "w1".data none [1]).1,
     ⟨409, some "text/plain; charset=utf-8",
      .text "Cannot override an existing record".data⟩) ∧
    retrieve_artifact
      (store_artifact sampleRouter (some "t1".data) "w1".data none [1]).1
      (some "t1".data) "w1".data =
    ((store_artifact sampleRouter (some "t1".data) "w1".data none [1]).1,
     ⟨200, some "application/octet-stream", .bytes [1]⟩) :=
  C1_write_once_after_success sampleRouter
    (store_artifact sampleRouter (some "t1".data) "w1".data none [1]).1
    "t1".data "w1".data none none [1] [2]
    ⟨202, some "text/plain; charset=utf-8", .text []⟩
    (by decide) (by decide)

/-- C2 counterexample: the round trip claim names 200 as the status of a
successful PUT; a concrete successful PUT answers 202 instead. -/
theorem C2_counterexample :
    (store_artifact sampleRouter (some "t1".data) "h2".data none
      [1, 2]).2.status = 202 ∧
    (store_artifact sampleRouter (some "t1".data) "h2".data none
      [1, 2]).2.status ≠ 200 := by decide

/-- C2: round trip, amended to the success status used by the code.  Immediately
after a PUT that succeeded (status 202), a GET for the same tenant token
and hash returns 200 with exactly the stored body and Content-Type
application/octet-stream: store and retrieve resolve the token to the
same bucket and compose the identical storage key. -/
theorem C2_round_trip_after_success
    (r r' : MultiStorageRouter) (tok hash : Str) (cl : Option Nat)
    (body : Bytes) (resp : HttpResponse)
    (h : store_artifact r (some tok) hash cl body = (r', resp))
    (hs : resp.status = 202) :
    retrieve_artifact r' (some tok) hash =
      (r', ⟨200, some "application/octet-stream", .bytes body⟩) := by
  obtain ⟨hval, hex, hstore, hresp⟩ := store_artifact_success_inv h hs
  have hret := retrieve_after_store hstore
  unfold retrieve_artifact
  simp [hval, hret]

/-- C2 witness: the round-trip theorem applied to a concrete router,
token, hash and body. -/
theorem C2_witness :
    retrieve_artifact
      (store_artifact sampleRouter (some "t1".data) "abc".data none [5]).1
      (some "t1".data) "abc".data =
    ((store_artifact sampleRouter (some "t1".data) "abc".data none [5]).1,
     ⟨200, some "application/octet-stream", .bytes [5]⟩) :=
  C2_round_trip_after_success sampleRouter
    (store_artifact sampleRouter (some "t1".data) "abc".data none [5]).1
    "t1".data "abc".data none [5]
    ⟨202, some "text/plain; charset=utf-8", .text []⟩
    (by decide) (by decide)

/-- C3 counterexample: build_key does not strip the leading slash of the
namespace, so the composed key differs from the stripped form of the
spec (a unit test in the source asserts the unstripped key /ci/abc123). -/
theorem C3_counterexample :
    build_key "/ci".data "abc123".data ≠
      spec_storage_key "/ci".data "abc123".data ∧
    build_key "/ci".data "abc123".data = "/ci/abc123".data ∧
    spec_storage_key "/ci".data "abc123".data = "ci/abc123".data := by decide

/-- C3, amended: the key sent to the backend keeps the namespace exactly
as configured; it equals the hash when the namespace is empty and
otherwise namespace, slash, hash with no stripping of the leading slash.
After a successful store through the router, the resolved bucket holds the
body under precisely that key. -/
theorem C3_storage_key_unstripped
    (r r' : MultiStorageRouter) (tok hash : Str) (body : Bytes)
    (sc : ResolvedServiceAccessToken)
    (hsc : assocFind tok r.token_map = some sc)
    (h : store_with_token r tok hash body = .ok r') :
    assocFind sc.bucket r'.storages =
      some (((if sc.keyPrefix = [] then hash
              else sc.keyPrefix ++ '/' :: hash), body) ::
            (assocFind sc.bucket r.storages).getD []) := by
  obtain ⟨sc2, st2, hsc2, hst2, hex2, hr'⟩ := store_with_token_ok_inv h
  rw [hsc] at hsc2
  injection hsc2 with hsc2
  subst hsc2
  subst hr'
  unfold update_bucket put_object build_key
  simp only [assocFind_cons_self, hst2, Option.getD_some, List.isEmpty_iff]

/-- C3 witness: the amended key theorem applied to the sample router,
whose token t1 carries the namespace /test; the stored entry sits under
the unstripped key /test/k3. -/
theorem C3_witness :
    assocFind "b1".data
      ((store_with_token sampleRouter "t1".data "k3".data [7]).toOption.getD
        sampleRouter).storages =
      some [("/test/k3".data, [7])] := by
  have h : store_with_token sampleRouter "t1".data "k3".data [7] =
      .ok ((store_with_token sampleRouter "t1".data "k3".data [7]).toOption.getD
        sampleRouter) := by decide
  have := C3_storage_key_unstripped sampleRouter
    ((store_with_token sampleRouter "t1".data "k3".data [7]).toOption.getD
      sampleRouter)
    "t1".data "k3".data [7] sampleTokenRecord (by decide) h
  simpa using this

/-- C5: the tests of the repository (api_integration_test.rs and
openapi_compliance_test.rs) assert that a successful PUT answers 200 OK,
but the handler answers 202 Accepted with an empty body: a successful
authenticated PUT through the full router evaluates to status 202. -/
theorem C5_put_success_returns_202 :
    (serve sampleRouter (.cachePut (some "Bearer t1".data) "abc123".data
      (some 5) [72, 101, 108, 108, 111])).2 =
    ⟨202, some "text/plain; charset=utf-8", .text []⟩ := by decide

/-- C8 counterexample: the bare storage adapter, with no router or handler
involved, refuses an occupied key by itself: its store operation performs
its own existence check and returns AlreadyExists. -/
theorem C8_counterexample :
    s3_store [("k".data, [1])] "k".data [2] = .error .AlreadyExists ∧
    s3_exists [("k".data, [1])] "k".data = true := by decide

/-- C8, amended: the store operation of the adapter does enforce uniqueness itself: it
first checks existence of the key and returns AlreadyExists when the key
is occupied, writing nothing; only for an absent key does it forward the
body to put_object.  (The router/handler layer performs an additional
exists-check before calling store.) -/
theorem C8_adapter_store_enforces (st : S3State) (key : Str) (data : Bytes) :
    (s3_exists st key = true → s3_store st key data = .error .AlreadyExists) ∧
    (s3_exists st key = false →
      s3_store st key data = .ok (put_object st key data)) := by
  constructor <;> intro h <;> simp [s3_store, h]

/-- C8 witness: the amended adapter theorem applied to concrete states. -/
theorem C8_witness :
    s3_store [] "k8".data [2] = .ok (put_object [] "k8".data [2]) :=
  (C8_adapter_store_enforces [] "k8".data [2]).2 (by decide)

/-- C4 counterexample: the hash consisting of the single character é is
accepted by validate_hash (char::is_alphanumeric of Rust is a Unicode
predicate applied to characters), yet its UTF-8 bytes 0xC3 0xA9 lie
outside the byte set of A to Z, a to z, 0 to 9, underscore and hyphen, so
the only-if direction of the claim fails. -/
theorem C4_counterexample :
    validate_hash "é".data = .ok () ∧
    strUtf8Bytes "é".data = [0xC3, 0xA9] ∧
    ¬(∀ b ∈ strUtf8Bytes "é".data,
        (0x41 ≤ b ∧ b ≤ 0x5A) ∨ (0x61 ≤ b ∧ b ≤ 0x7A) ∨
        (0x30 ≤ b ∧ b ≤ 0x39) ∨ b = 0x5F ∨ b = 0x2D) := by decide

/-- C4, amended: validation fails with 400 exactly when the hash is
empty, longer than 128 UTF-8 bytes, or contains a character that is not
alphanumeric in the Unicode sense of char::is_alphanumeric and is not a
hyphen or underscore.  The check is per character, not per byte, so
non-ASCII alphanumeric characters are accepted. -/
theorem C4_validate_hash_iff (hash : Str) :
    validate_hash hash = .error .BadRequest ↔
      hash = [] ∨ 128 < strUtf8Len hash ∨
        ∃ c ∈ hash, ¬(rustIsAlphanumeric c = true ∨ c = '-' ∨ c = '_') := by
  unfold validate_hash
  split_ifs with h1 h2 h3
  · simp only [List.isEmpty_iff] at h1
    simp [h1]
  · rw [Bool.not_eq_true'] at h2
    rw [List.all_eq_false] at h2
    obtain ⟨c, hc, hpc⟩ := h2
    simp only [Bool.or_eq_true, beq_iff_eq, or_assoc] at hpc
    constructor
    · intro _
      exact Or.inr (Or.inr ⟨c, hc, hpc⟩)
    · intro _
      rfl
  · constructor
    · intro _
      exact Or.inr (Or.inl h3)
    · intro _
      rfl
  · simp only [List.isEmpty_iff] at h1
    rw [Bool.not_eq_true', Bool.not_eq_false, List.all_eq_true] at h2
    constructor
    · intro h
      exact absurd h (by simp)
    · intro h
      rcases h with h | h | ⟨c, hc, hpc⟩
      · exact absurd h h1
      · exact absurd h h3
      · have := h2 c hc
        simp only [Bool.or_eq_true, beq_iff_eq, or_assoc] at this
        exact absurd this hpc

/-- C4 witness: the amended iff applied at the empty hash. -/
theorem C4_witness : validate_hash [] = .error .BadRequest :=
  (C4_validate_hash_iff []).mpr (Or.inl rfl)

/-- C6 counterexample: with the two configured tokens of the sample
two-tenant router, a candidate equal to the first token in iteration
order is found after one comparison, not after two: the loop breaks at
the first match, so the number of comparisons depends on where the match
occurs. -/
theorem C6_counterexample :
    (token_walk (MultiStorageRouter.from_config sampleConfig2).tokens
      "tB".data).2 = 1 ∧
    (MultiStorageRouter.from_config sampleConfig2).tokens.length = 2 := by
  decide

/-- C6, amended: the loop compares the candidate against the configured
tokens in order with a constant-time byte equality each, short-circuits
at the first match (after one comparison per token preceding the match,
plus one), and only when no token matches does the number of comparisons
equal the number of configured tokens. -/
theorem C6_token_walk_spec (tokens : List Str) (cand : Str) :
    ((token_walk tokens cand).1 = none →
      cand ∉ tokens ∧ (token_walk tokens cand).2 = tokens.length) ∧
    (∀ t, (token_walk tokens cand).1 = some t →
      t = cand ∧ cand ∈ tokens ∧
      (token_walk tokens cand).2 =
        (tokens.takeWhile fun u => u ≠ cand).length + 1) := by
  induction tokens with
  | nil =>
    refine ⟨fun _ => ⟨by simp, rfl⟩, fun t ht => ?_⟩
    simp [token_walk] at ht
  | cons hd tl ih =>
    by_cases hhd : cand = hd
    · subst hhd
      refine ⟨fun hnone => ?_, fun t ht => ?_⟩
      · simp [token_walk] at hnone
      · simp only [token_walk, if_pos rfl] at ht
        injection ht with ht
        subst ht
        refine ⟨rfl, List.mem_cons_self .., ?_⟩
        simp [token_walk, List.takeWhile]
    · have hwalk : token_walk (hd :: tl) cand =
          ((token_walk tl cand).1, (token_walk tl cand).2 + 1) := by
        simp [token_walk, hhd]
      refine ⟨fun hnone => ?_, fun t ht => ?_⟩
      · rw [hwalk] at hnone
        simp only at hnone
        obtain ⟨hmem, hlen⟩ := ih.1 hnone
        refine ⟨by simp [hmem, Ne.symm, hhd], ?_⟩
        rw [hwalk]
        simp [hlen]
      · rw [hwalk] at ht
        simp only at ht
        obtain ⟨hteq, hmem, hcount⟩ := ih.2 t ht
        refine ⟨hteq, List.mem_cons_of_mem _ hmem, ?_⟩
        rw [hwalk]
        have hne : (decide (hd ≠ cand)) = true :=
          decide_eq_true fun h => hhd h.symm
        simp only [List.takeWhile_cons, hne, cond_true, List.length_cons]
        rw [hcount]
        simp

/-- C6 witness: the walk theorem applied to the sample two-token router
with a candidate matching no token: both comparisons are performed. -/
theorem C6_witness :
    "zz".data ∉ (MultiStorageRouter.from_config sampleConfig2).tokens ∧
    (token_walk (MultiStorageRouter.from_config sampleConfig2).tokens
      "zz".data).2 =
      (MultiStorageRouter.from_config sampleConfig2).tokens.length :=
  (C6_token_walk_spec (MultiStorageRouter.from_config sampleConfig2).tokens
    "zz".data).1 (by decide)

theorem auth_middleware_error_eq {r : MultiStorageRouter} {auth : Option Str}
    {resp : HttpResponse} (h : auth_middleware r auth = .error resp) :
    resp = middleware401 := by
  unfold auth_middleware at h
  cases hb : bearerToken auth with
  | none =>
    simp only [hb] at h
    injection h with h
    exact h.symm
  | some cand =>
    simp only [hb] at h
    cases hw : (token_walk r.tokens cand).1 with
    | some t => simp [hw] at h
    | none =>
      simp only [hw] at h
      injection h with h
      exact h.symm

theorem retrieve_artifact_shape (r : MultiStorageRouter) (token : Option Str)
    (hash : Str) :
    (∃ data, (retrieve_artifact r token hash).2 =
      ⟨200, some "application/octet-stream", .bytes data⟩) ∨
    ∃ e, (retrieve_artifact r token hash).2 = errorResponse e := by
  unfold retrieve_artifact
  split
  · rename_i e _
    exact Or.inr ⟨e, rfl⟩
  · split
    · exact Or.inr ⟨.Unauthorized, rfl⟩
    · split
      · rename_i e _
        exact Or.inr ⟨.Storage e, rfl⟩
      · rename_i data _
        exact Or.inl ⟨data, rfl⟩

theorem store_artifact_shape (r : MultiStorageRouter) (token : Option Str)
    (hash : Str) (cl : Option Nat) (body : Bytes) :
    (store_artifact r token hash cl body).2 =
      ⟨202, some "text/plain; charset=utf-8", .text []⟩ ∨
    (store_artifact r token hash cl body).2 =
      ⟨409, some "text/plain; charset=utf-8",
       .text "Cannot override an existing record".data⟩ ∨
    ∃ e, (store_artifact r token hash cl body).2 = errorResponse e := by
  unfold store_artifact
  split
  · rename_i e _
    exact Or.inr (Or.inr ⟨e, rfl⟩)
  · split
    · exact Or.inr (Or.inr ⟨.Unauthorized, rfl⟩)
    · split
      · rename_i e _
        exact Or.inr (Or.inr ⟨.Storage e, rfl⟩)
      · exact Or.inr (Or.inl rfl)
      · split
        · rename_i e _
          exact Or.inr (Or.inr ⟨.Storage e, rfl⟩)
        · exact Or.inl rfl

/-- C7 counterexample: a request to a cache route without an Authorization
header is answered by the authentication middleware with a bare 401: no
Content-Type header at all and an empty body instead of the fixed body
Unauthorized, so the 401 responses of the middleware do not carry
text/plain. -/
theorem C7_counterexample :
    (serve sampleRouter (.cacheGet none "abc".data)).2 = middleware401 ∧
    middleware401.status = 401 ∧
    middleware401.contentType = none ∧
    ¬isTextPlain middleware401.contentType ∧
    middleware401.body ≠ .text "Unauthorized".data := by decide

/-- C7, amended: every non-2xx response of the server either is the bare
401 of the authentication middleware (empty body, no Content-Type) or
carries the text/plain media type (bare or with the charset parameter
axum adds to string bodies) together with the fixed body for its status:
401 Unauthorized, 400 Bad request, 404 The record was not found, 409
Cannot override an existing record, 500 Internal server error. -/
theorem C7_non_2xx_responses (r r2 : MultiStorageRouter) (req : HttpRequest)
    (resp : HttpResponse) (hserve : serve r req = (r2, resp))
    (h200 : resp.status ≠ 200) (h202 : resp.status ≠ 202) :
    resp = middleware401 ∨
    (isTextPlain resp.contentType ∧
      resp.body = .text (fixedBody resp.status)) := by
  cases req with
  | healthGet =>
    unfold serve at hserve
    injection hserve with h1 h2
    rw [← h2] at h200
    exact absurd rfl h200
  | cacheGet auth hash =>
    unfold serve at hserve
    cases hmw : auth_middleware r auth with
    | error mresp =>
      simp only [hmw] at hserve
      injection hserve with h1 h2
      exact Or.inl (h2 ▸ auth_middleware_error_eq hmw)
    | ok tok =>
      simp only [hmw] at hserve
      have hshape := retrieve_artifact_shape r (some tok) hash
      rw [hserve] at hshape
      dsimp only at hshape
      rcases hshape with ⟨data, hresp⟩ | ⟨e, hresp⟩
      · rw [hresp] at h200
        exact absurd rfl h200
      · rw [hresp]
        exact Or.inr (errorResponse_fixed e)
  | cachePut auth hash cl body =>
    unfold serve at hserve
    cases hmw : auth_middleware r auth with
    | error mresp =>
      simp only [hmw] at hserve
      injection hserve with h1 h2
      exact Or.inl (h2 ▸ auth_middleware_error_eq hmw)
    | ok tok =>
      simp only [hmw] at hserve
      have hshape := store_artifact_shape r (some tok) hash cl body
      rw [hserve] at hshape
      dsimp only at hshape
      rcases hshape with hresp | hresp | ⟨e, hresp⟩
      · rw [hresp] at h202
        exact absurd rfl h202
      · rw [hresp]
        exact Or.inr ⟨Or.inr rfl, rfl⟩
      · rw [hresp]
        exact Or.inr (errorResponse_fixed e)

/-- C7 witness: the amended theorem applied to a concrete 404: a GET for
a never stored hash with a valid token. -/
theorem C7_witness :
    (serve sampleRouter (.cacheGet (some "Bearer t1".data)
        "neverstored".data)).2 = middleware401 ∨
    (isTextPlain (serve sampleRouter (.cacheGet (some "Bearer t1".data)
        "neverstored".data)).2.contentType ∧
      (serve sampleRouter (.cacheGet (some "Bearer t1".data)
        "neverstored".data)).2.body =
      .text (fixedBody (serve sampleRouter (.cacheGet (some "Bearer t1".data)
        "neverstored".data)).2.status)) :=
  C7_non_2xx_responses sampleRouter
    (serve sampleRouter (.cacheGet (some "Bearer t1".data)
      "neverstored".data)).1
    (.cacheGet (some "Bearer t1".data) "neverstored".data)
    (serve sampleRouter (.cacheGet (some "Bearer t1".data)
      "neverstored".data)).2
    rfl (by decide) (by decide)

theorem head?_dropLast_of_one_lt {α : Type} :
    ∀ (l : List α), 1 < l.length → l.dropLast.head? = l.head?
  | [], h => by simp at h
  | [_], h => by simp at h
  | _ :: _ :: _, _ => by simp [List.dropLast]

theorem getLast?_cons_of_ne_nil {α : Type} (a : α) :
    ∀ (l : List α), l ≠ [] → (a :: l).getLast? = l.getLast?
  | [], h => absurd rfl h
  | b :: t, _ => by
    rw [List.getLast?_cons_cons]

/-- C9 counterexample: the input consisting of a single slash normalizes
to the single slash itself, which begins and ends with a slash, refuting
the claim that a non-empty normalized prefix never ends with one (the
unit tests of the source assert this value). -/
theorem C9_counterexample :
    normalizePrefix "/".data = "/".data ∧
    ¬(normalizePrefix "/".data = [] ∨
      ((normalizePrefix "/".data).head? = some '/' ∧
        (normalizePrefix "/".data).getLast? ≠ some '/')) := by decide

/-- C9, amended: the normalized prefix is either empty or begins with a
slash, and it does not end with a slash provided the trimmed input does
not itself end with one; for the input consisting of a single slash, or
inputs with repeated trailing slashes (only one is removed), the result
can still end with a slash. -/
theorem C9_normalize_shape (p : Str) :
    (normalizePrefix p = [] ∨ (normalizePrefix p).head? = some '/') ∧
    (rustTrim p ≠ [] → (rustTrim p).getLast? ≠ some '/' →
      (normalizePrefix p).getLast? ≠ some '/') := by
  unfold normalizePrefix
  generalize htrim : rustTrim p = t
  cases t with
  | nil => simp
  | cons a rest =>
    have hne : a :: rest ≠ ([] : Str) := by simp
    set normalized : Str :=
      if (a :: rest).head? = some '/' then a :: rest else '/' :: a :: rest
      with hnorm
    have hhead : normalized.head? = some '/' := by
      rw [hnorm]
      by_cases ha : (a :: rest).head? = some '/'
      · rw [if_pos ha]; exact ha
      · rw [if_neg ha]; rfl
    have hlast : normalized.getLast? = (a :: rest).getLast? := by
      rw [hnorm]
      by_cases ha : (a :: rest).head? = some '/'
      · rw [if_pos ha]
      · rw [if_neg ha, getLast?_cons_of_ne_nil _ _ hne]
    constructor
    · simp only [List.isEmpty_cons, Bool.false_eq_true, if_false]
      by_cases hcond :
          (decide (normalized.length > 1) && (normalized.getLast? == some '/')) = true
      · rw [if_pos hcond]
        right
        rw [Bool.and_eq_true, decide_eq_true_eq] at hcond
        rw [head?_dropLast_of_one_lt _ hcond.1]
        exact hhead
      · rw [if_neg hcond]
        right
        exact hhead
    · intro _ hlastne
      simp only [List.isEmpty_cons, Bool.false_eq_true, if_false]
      have hcond :
          (decide (normalized.length > 1) && (normalized.getLast? == some '/')) = false := by
        rw [Bool.and_eq_false_iff]
        right
        rw [beq_eq_false_iff_ne]
        rw [hlast]
        exact hlastne
      rw [if_neg (by rw [hcond]; exact Bool.false_ne_true)]
      rw [hlast]
      exact hlastne

/-- C9 witness: the amended shape theorem applied to the input ci with no
trailing slash: the result /ci begins with a slash and does not end with
one. -/
theorem C9_witness :
    (normalizePrefix "ci".data = [] ∨
      (normalizePrefix "ci".data).head? = some '/') ∧
    (normalizePrefix "ci".data).getLast? ≠ some '/' :=
  ⟨(C9_normalize_shape "ci".data).1,
   (C9_normalize_shape "ci".data).2 (by decide) (by decide)⟩

theorem mem_foldl_cons {x : Str × ResolvedServiceAccessToken} :
    ∀ (ts : List ResolvedServiceAccessToken)
      (acc : List (Str × ResolvedServiceAccessToken)),
      x ∈ ts.foldl (fun m t => (t.access_token, t) :: m) acc →
      x ∈ acc ∨ ∃ t ∈ ts, x = (t.access_token, t)
  | [], _, h => Or.inl h
  | t :: ts, acc, h => by
    rcases mem_foldl_cons ts ((t.access_token, t) :: acc) h with h' | ⟨u, hu, hx⟩
    · rcases List.mem_cons.mp h' with hx | hx
      · exact Or.inr ⟨t, List.mem_cons_self .., hx⟩
      · exact Or.inl hx
    · exact Or.inr ⟨u, List.mem_cons_of_mem _ hu, hx⟩

theorem s3_store_ne_opfailed (st : S3State) (k : Str) (b : Bytes) :
    s3_store st k b ≠ .error .OperationFailed := by
  unfold s3_store
  split <;> simp

theorem s3_retrieve_ne_opfailed (st : S3State) (k : Str) :
    s3_retrieve st k ≠ .error .OperationFailed := by
  unfold s3_retrieve
  split <;> simp

/-- C10: for a router built by from_config from a configuration in which
every service token references a configured bucket (the property checked
by YamlConfig::validate), every token enumerated by tokens() resolves:
resolve_storage succeeds, exists_with_token succeeds, and neither
store_with_token nor retrieve_with_token can return the OperationFailed
produced for unknown tokens or missing buckets. -/
theorem C10_resolution_total (c : ResolvedConfig)
    (hvalid : ∀ t ∈ c.service_access_tokens,
      t.bucket ∈ c.buckets.map (·.name))
    (tok : Str)
    (htok : tok ∈ (MultiStorageRouter.from_config c).tokens) :
    (∃ v, resolve_storage (MultiStorageRouter.from_config c) tok = .ok v) ∧
    (∀ hash, ∃ b,
      exists_with_token (MultiStorageRouter.from_config c) tok hash = .ok b) ∧
    (∀ hash body,
      store_with_token (MultiStorageRouter.from_config c) tok hash body ≠
        .error .OperationFailed) ∧
    (∀ hash,
      retrieve_with_token (MultiStorageRouter.from_config c) tok hash ≠
        .error .OperationFailed) := by
  have htok' : tok ∈ (MultiStorageRouter.from_config c).token_map.map (·.1) :=
    htok
  obtain ⟨sc, hsc⟩ := assocFind_isSome_of_mem_keys htok'
  have hmem : (tok, sc) ∈ build_token_registry c := assocFind_mem hsc
  have hsc_mem : sc ∈ c.service_access_tokens := by
    rcases mem_foldl_cons c.service_access_tokens [] hmem with h | ⟨t, ht, hx⟩
    · simp at h
    · injection hx with h1 h2
      rw [h2]
      exact ht
  have hbucket : sc.bucket ∈
      (MultiStorageRouter.from_config c).storages.map (·.1) := by
    have : (MultiStorageRouter.from_config c).storages.map (·.1) =
        c.buckets.map (·.name) := by
      unfold MultiStorageRouter.from_config
      rw [List.map_map]
      rfl
    rw [this]
    exact hvalid sc hsc_mem
  obtain ⟨st, hst⟩ := assocFind_isSome_of_mem_keys hbucket
  have hres : resolve_storage (MultiStorageRouter.from_config c) tok =
      .ok (sc.bucket, st, sc.keyPrefix) := by
    unfold resolve_storage
    simp only [hsc, hst]
  refine ⟨⟨_, hres⟩, fun hash => ?_, fun hash body => ?_, fun hash => ?_⟩
  · unfold exists_with_token
    rw [hres]
    exact ⟨_, rfl⟩
  · unfold store_with_token
    rw [hres]
    dsimp only
    intro hcontra
    cases hstore : s3_store st (build_key sc.keyPrefix hash) body with
    | error e =>
      rw [hstore] at hcontra
      injection hcontra with h
      rw [h] at hstore
      exact s3_store_ne_opfailed _ _ _ hstore
    | ok st' =>
      rw [hstore] at hcontra
      exact absurd hcontra (by simp)
  · unfold retrieve_with_token
    rw [hres]
    dsimp only
    intro hcontra
    exact s3_retrieve_ne_opfailed _ _ hcontra

/-- C10 witness: the resolution theorem applied to the sample
configuration and its token t1. -/
theorem C10_witness :
    (∃ v, resolve_storage (MultiStorageRouter.from_config sampleConfig)
      "t1".data = .ok v) ∧
    (∀ hash, ∃ b,
      exists_with_token (MultiStorageRouter.from_config sampleConfig)
        "t1".data hash = .ok b) ∧
    (∀ hash body,
      store_with_token (MultiStorageRouter.from_config sampleConfig)
        "t1".data hash body ≠ .error .OperationFailed) ∧
    (∀ hash,
      retrieve_with_token (MultiStorageRouter.from_config sampleConfig)
        "t1".data hash ≠ .error .OperationFailed) :=
  C10_resolution_total sampleConfig (by decide) "t1".data (by decide)
